import Mathlib

/-!
Shallow embedding of the easyspeak GNOME-shell extension (`extension.js`).

The extension exposes a DBus façade over three components:
* `GridOverlay` — a screen overlay plus a virtual pointer device that emits
  timed move / button / scroll events;
* `WindowManager` — focused-window actions, tiling, window focus by
  substring, and workspace navigation;
* `ScreenshotManager` — deferred screen capture (not needed by the claims).

Pointer-event emission is modelled as a trace: each method returns the new
object state, the list of events it emitted through the virtual device, and
a success flag (`false` means a JS exception escaped the method, which in
the source happens exactly when `create_virtual_device` fails).  Timestamps
are microseconds of the monotonic clock, passed in as the parameter `t`
(the source reads `GLib.get_monotonic_time()`); the source's `t + 5000`
etc. are 5 ms offsets.
-/

namespace EasySpeak

/-- A display output as exposed by `Main.layoutManager.primaryMonitor`. -/
structure Monitor where
  x : Int
  y : Int
  width : Int
  height : Int
  deriving DecidableEq, Repr

/-- A rectangle (used for work areas and window frames). -/
structure Rect where
  x : Int
  y : Int
  width : Int
  height : Int
  deriving DecidableEq, Repr

/-- The geometry of the `St.Widget` container created by `show`
(children drawn by `_draw` are purely visual and not modelled). -/
structure Container where
  x : Int
  y : Int
  width : Int
  height : Int
  deriving DecidableEq, Repr

/-- Pointer buttons used by the source (`Clutter.BUTTON_PRIMARY` /
`BUTTON_SECONDARY` / `BUTTON_MIDDLE`). -/
inductive BtnKind where
  | primary
  | secondary
  | middle
  deriving DecidableEq, Repr

/-- `Clutter.ButtonState`. -/
inductive BtnState where
  | pressed
  | released
  deriving DecidableEq, Repr

/-- An event emitted through the virtual pointer device. -/
inductive PEvent where
  | motion (time : Int) (x y : Int)
  | button (time : Int) (btn : BtnKind) (bstate : BtnState)
  | scroll (time : Int) (dx dy : Int)
  deriving DecidableEq, Repr

/-- `true` exactly on primary-button press events. -/
def isPress : PEvent → Bool
  | PEvent.button _ BtnKind.primary BtnState.pressed => true
  | _ => false

/-- `true` exactly on primary-button release events. -/
def isRelease : PEvent → Bool
  | PEvent.button _ BtnKind.primary BtnState.released => true
  | _ => false

/-- Mutable fields of the JS `GridOverlay` object (constructor, lines
107–115).  `createAttempts` counts the calls made to
`seat.create_virtual_device` so that the retry behaviour of `_getPointer`
is observable; it corresponds to no JS field but only instruments the
single creation site. -/
structure GridOverlayState where
  container : Option Container
  bounds : Int × Int × Int × Int
  screenW : Int
  screenH : Int
  workArea : Option Rect
  pointer : Option Unit
  dragging : Bool
  createAttempts : Nat
  deriving DecidableEq, Repr

/-- The constructor's initial field values. -/
def initState : GridOverlayState :=
  { container := none
    bounds := (0, 0, 1920, 1080)
    screenW := 1920
    screenH := 1080
    workArea := none
    pointer := none
    dragging := false
    createAttempts := 0 }

/-- Outcome of each `create_virtual_device` attempt: `env k` says whether
the `k`-th attempt succeeds (the device is opaque, so success carries no
data). -/
def CreateEnv : Type := Nat → Bool

/-- `GridOverlay._getPointer`: returns the cached device, otherwise
attempts creation once; a failed attempt throws in JS, leaving
`this._pointer` null, which is modelled by returning `none` with the
attempt counted. -/
def _getPointer (env : CreateEnv) (s : GridOverlayState) :
    GridOverlayState × Option Unit :=
  match s.pointer with
  | some p => (s, some p)
  | none =>
      if env s.createAttempts then
        ({ s with pointer := some (), createAttempts := s.createAttempts + 1 },
         some ())
      else
        ({ s with createAttempts := s.createAttempts + 1 }, none)

/-- `GridOverlay.hide`: destroys the container if present. -/
def hide (s : GridOverlayState) : GridOverlayState :=
  { s with container := none }

/-- `GridOverlay.show` (named `showGrid` because `show` is a Lean keyword):
ignores the requested `width`/`height`, re-measures the primary monitor,
resets `bounds` to the full output and rebuilds the container there.  The
initial `if (this.container) this.hide()` and the later container creation
both only touch `container`, so they compose as below. -/
def showGrid (mon : Monitor) (_width _height : Int) (s : GridOverlayState) :
    GridOverlayState :=
  let s1 := if s.container.isSome then hide s else s
  { s1 with
    screenW := mon.width
    screenH := mon.height
    bounds := (0, 0, mon.width, mon.height)
    container := some ⟨mon.x, mon.y, mon.width, mon.height⟩ }

/-- `GridOverlay.getScreenSize`: reads the live primary monitor; the object
state (`this`) is not consulted at all. -/
def getScreenSize (mon : Monitor) (_s : GridOverlayState) : Int × Int :=
  (mon.width, mon.height)

/-- `GridOverlay.update`: no-op without a container, else overwrite bounds. -/
def update (x y width height : Int) (s : GridOverlayState) : GridOverlayState :=
  if s.container.isSome then { s with bounds := (x, y, width, height) } else s

/-- Result of a pointer-producing method: new state, emitted events in
order, and `true` unless a JS exception escaped. -/
def PtrResult : Type := GridOverlayState × List PEvent × Bool

/-- `GridOverlay.click`: hide; move(t); press-primary(t+5ms);
release-primary(t+10ms). -/
def click (env : CreateEnv) (t x y : Int) (s : GridOverlayState) : PtrResult :=
  let s1 := hide s
  match _getPointer env s1 with
  | (s2, none) => (s2, [], false)
  | (s2, some _) =>
      (s2,
       [PEvent.motion t x y,
        PEvent.button (t + 5000) BtnKind.primary BtnState.pressed,
        PEvent.button (t + 10000) BtnKind.primary BtnState.released],
       true)

/-- `GridOverlay.doubleClick`: hide; move(t); press(t+5ms); release(t+10ms);
press(t+60ms); release(t+65ms). -/
def doubleClick (env : CreateEnv) (t x y : Int) (s : GridOverlayState) :
    PtrResult :=
  let s1 := hide s
  match _getPointer env s1 with
  | (s2, none) => (s2, [], false)
  | (s2, some _) =>
      (s2,
       [PEvent.motion t x y,
        PEvent.button (t + 5000) BtnKind.primary BtnState.pressed,
        PEvent.button (t + 10000) BtnKind.primary BtnState.released,
        PEvent.button (t + 60000) BtnKind.primary BtnState.pressed,
        PEvent.button (t + 65000) BtnKind.primary BtnState.released],
       true)

/-- `GridOverlay.rightClick`. -/
def rightClick (env : CreateEnv) (t x y : Int) (s : GridOverlayState) :
    PtrResult :=
  let s1 := hide s
  match _getPointer env s1 with
  | (s2, none) => (s2, [], false)
  | (s2, some _) =>
      (s2,
       [PEvent.motion t x y,
        PEvent.button (t + 5000) BtnKind.secondary BtnState.pressed,
        PEvent.button (t + 10000) BtnKind.secondary BtnState.released],
       true)

/-- `GridOverlay.middleClick`. -/
def middleClick (env : CreateEnv) (t x y : Int) (s : GridOverlayState) :
    PtrResult :=
  let s1 := hide s
  match _getPointer env s1 with
  | (s2, none) => (s2, [], false)
  | (s2, some _) =>
      (s2,
       [PEvent.motion t x y,
        PEvent.button (t + 5000) BtnKind.middle BtnState.pressed,
        PEvent.button (t + 10000) BtnKind.middle BtnState.released],
       true)

/-- `GridOverlay.moveTo`: move only; no hide, no drag-state change. -/
def moveTo (env : CreateEnv) (t x y : Int) (s : GridOverlayState) : PtrResult :=
  match _getPointer env s with
  | (s2, none) => (s2, [], false)
  | (s2, some _) => (s2, [PEvent.motion t x y], true)

/-- `GridOverlay.startDrag`: keeps the grid visible; move(t);
press-primary(t+5ms); sets `_dragging` (only reached when no exception was
thrown, i.e. the device exists). -/
def startDrag (env : CreateEnv) (t x y : Int) (s : GridOverlayState) :
    PtrResult :=
  match _getPointer env s with
  | (s2, none) => (s2, [], false)
  | (s2, some _) =>
      ({ s2 with dragging := true },
       [PEvent.motion t x y,
        PEvent.button (t + 5000) BtnKind.primary BtnState.pressed],
       true)

/-- `GridOverlay.endDrag`: early return unless `_dragging`; else hide;
move(t); release-primary(t+5ms); clears `_dragging`. -/
def endDrag (env : CreateEnv) (t x y : Int) (s : GridOverlayState) :
    PtrResult :=
  if s.dragging then
    let s1 := hide s
    match _getPointer env s1 with
    | (s2, none) => (s2, [], false)
    | (s2, some _) =>
        ({ s2 with dragging := false },
         [PEvent.motion t x y,
          PEvent.button (t + 5000) BtnKind.primary BtnState.released],
         true)
  else (s, [], true)

/-- The `switch (direction)` of `GridOverlay.scroll`: the unit delta vector
for a direction string, `(0,0)` for anything unrecognised. -/
def dirDelta (direction : String) : Int × Int :=
  if direction = "up" then (0, -1)
  else if direction = "down" then (0, 1)
  else if direction = "left" then (-1, 0)
  else if direction = "right" then (1, 0)
  else (0, 0)

/-- The `for (let i = 0; i < clicks; i++)` loop of `GridOverlay.scroll`:
one continuous-scroll event at `t + i*50000` per iteration. -/
def scrollEvents (t dx dy : Int) (clicks : Nat) : List PEvent :=
  (List.range clicks).map (fun i => PEvent.scroll (t + (i : Int) * 50000) dx dy)

/-- `GridOverlay.scroll`: hide; move(t); then the scroll loop. -/
def scroll (env : CreateEnv) (t x y : Int) (direction : String) (clicks : Nat)
    (s : GridOverlayState) : PtrResult :=
  let s1 := hide s
  match _getPointer env s1 with
  | (s2, none) => (s2, [], false)
  | (s2, some _) =>
      (s2,
       PEvent.motion t x y ::
         scrollEvents t (dirDelta direction).1 (dirDelta direction).2 clicks,
       true)

/-! ## WindowManager: workspace navigation -/

/-- The `global.workspace_manager` state: workspace count and active
index (both GJS integers). -/
structure WSState where
  n : Int
  current : Int
  deriving DecidableEq, Repr

/-- `workspaceManager.get_workspace_by_index`: a workspace object exists
exactly for indices in `[0, n)`; it is represented by its index. -/
def get_workspace_by_index (s : WSState) (index : Int) : Option Int :=
  if 0 ≤ index ∧ index < s.n then some index else none

/-- `WindowManager.switchWorkspace`: activate the workspace at `index` if
it exists, else do nothing. -/
def switchWorkspace (s : WSState) (index : Int) : WSState :=
  match get_workspace_by_index s index with
  | some i => { s with current := i }
  | none => s

/-- `WindowManager.nextWorkspace`: `min(current + 1, n - 1)` then switch. -/
def nextWorkspace (s : WSState) : WSState :=
  switchWorkspace s (min (s.current + 1) (s.n - 1))

/-- `WindowManager.prevWorkspace`: `max(current - 1, 0)` then switch. -/
def prevWorkspace (s : WSState) : WSState :=
  switchWorkspace s (max (s.current - 1) 0)

/-! ## WindowManager: tiling -/

/-- Operations `tileLeft`/`tileRight` invoke on the focused `Meta.Window`,
in call order: `unmaximize(Meta.MaximizeFlags.BOTH)` and
`move_resize_frame(user_op, x, y, width, height)`. -/
inductive WinAction where
  | unmaximizeBoth
  | moveResizeFrame (userOp : Bool) (x y width height : Int)
  deriving DecidableEq, Repr

/-- The modelled fields of a `Meta.Window`: maximized flag and frame
rectangle. -/
structure MetaWindow where
  maximized : Bool
  frame : Rect
  deriving DecidableEq, Repr

/-- Effect of `win.unmaximize(Meta.MaximizeFlags.BOTH)`. -/
def unmaximize (w : MetaWindow) : MetaWindow :=
  { w with maximized := false }

/-- Effect of `win.move_resize_frame(userOp, x, y, width, height)`. -/
def move_resize_frame (w : MetaWindow) (_userOp : Bool) (x y width height : Int) :
    MetaWindow :=
  { w with frame := ⟨x, y, width, height⟩ }

/-- `WindowManager.tileLeft`: no-op without a focused window; otherwise
unmaximize, then resize to the left half of the work area of the window's
monitor (`Math.floor(workArea.width / 2)` is floor division, `Int.fdiv`).
Returns the updated window and the ordered list of operations applied. -/
def tileLeft (workArea : Rect) (focus : Option MetaWindow) :
    Option MetaWindow × List WinAction :=
  match focus with
  | none => (none, [])
  | some win =>
      let w1 := unmaximize win
      let w2 := move_resize_frame w1 false workArea.x workArea.y
        (workArea.width.fdiv 2) workArea.height
      (some w2,
       [WinAction.unmaximizeBoth,
        WinAction.moveResizeFrame false workArea.x workArea.y
          (workArea.width.fdiv 2) workArea.height])

/-- `WindowManager.tileRight`: as `tileLeft` but anchored at
`workArea.x + Math.floor(workArea.width / 2)`. -/
def tileRight (workArea : Rect) (focus : Option MetaWindow) :
    Option MetaWindow × List WinAction :=
  match focus with
  | none => (none, [])
  | some win =>
      let w1 := unmaximize win
      let w2 := move_resize_frame w1 false (workArea.x + workArea.width.fdiv 2)
        workArea.y (workArea.width.fdiv 2) workArea.height
      (some w2,
       [WinAction.unmaximizeBoth,
        WinAction.moveResizeFrame false (workArea.x + workArea.width.fdiv 2)
          workArea.y (workArea.width.fdiv 2) workArea.height])

/-! ## WindowManager: focusWindow -/

/-- `Meta.WindowType`: only the `NORMAL` / other split matters. -/
inductive WindowType where
  | normal
  | other
  deriving DecidableEq, Repr

/-- The fields of a window that `focusWindow` consults.  Strings are
lists of characters; `get_title()` / `get_wm_class()` may return null,
hence `Option`. -/
structure WinInfo where
  wtype : WindowType
  title : Option (List Char)
  wmClass : Option (List Char)
  deriving DecidableEq, Repr

/-- JS `String.prototype.startsWith`-style check used to build `includes`:
is `needle` a prefix of `hay`? -/
def isPrefixOfCh : List Char → List Char → Bool
  | [], _ => true
  | _ :: _, [] => false
  | a :: as, b :: bs => a == b && isPrefixOfCh as bs

/-- JS `hay.includes(needle)`: `needle` occurs contiguously in `hay`
(always true for the empty needle). -/
def includes (hay needle : List Char) : Bool :=
  match hay with
  | [] => isPrefixOfCh needle []
  | _ :: t => isPrefixOfCh needle hay || includes t needle

/-- JS `toLowerCase`, character-wise. -/
def toLower (s : List Char) : List Char :=
  s.map Char.toLower

/-- The loop body of `WindowManager.focusWindow` over
`global.get_window_actors()`: `actor.get_meta_window()` may be null
(`Option WinInfo`); null and non-normal windows are skipped; a null title
or class falls back to the empty string (`?.toLowerCase() || ''`); the
first window whose lowered title or class contains the lowered needle is
activated and returned. -/
def focusWindowLoop (lowerTitle : List Char) :
    List (Option WinInfo) → Option WinInfo
  | [] => none
  | none :: rest => focusWindowLoop lowerTitle rest
  | some w :: rest =>
      if w.wtype = WindowType.normal then
        let title := toLower (w.title.getD [])
        let wmClass := toLower (w.wmClass.getD [])
        if includes title lowerTitle || includes wmClass lowerTitle then some w
        else focusWindowLoop lowerTitle rest
      else focusWindowLoop lowerTitle rest

/-- `WindowManager.focusWindow`: lowers the needle, scans the actors;
`some w` means `w.activate(...)` was called and `true` returned, `none`
means `false` was returned with no window activated. -/
def focusWindow (titleSubstring : List Char) (actors : List (Option WinInfo)) :
    Option WinInfo :=
  focusWindowLoop (toLower titleSubstring) actors

/-- A window record with absent title/class replaced by present-but-empty
ones (used to state that absence behaves like the empty string). -/
def fillAbsent (w : WinInfo) : WinInfo :=
  { w with title := some (w.title.getD []), wmClass := some (w.wmClass.getD []) }

/-! ## Concrete environments and states used by witnesses -/

/-- A device-creation environment where every attempt succeeds. -/
def okEnv : CreateEnv := fun _ => true

/-- A device-creation environment where every attempt fails. -/
def failEnv : CreateEnv := fun _ => false

/-- The fresh object state after one successful device creation. -/
def ptrReadyState : GridOverlayState :=
  { initState with pointer := some () }

/-- A state mid-drag: device created, `_dragging` set. -/
def draggingState : GridOverlayState :=
  { initState with pointer := some (), dragging := true }

/-! ## Helper lemmas -/

/-- JS `includes` with the empty needle always holds. -/
theorem includes_nil (hay : List Char) : includes hay [] = true := by
  cases hay <;> simp [includes, isPrefixOfCh]

/-- With the empty needle, the `focusWindow` scan returns the first
non-null normal window. -/
theorem focusWindowLoop_nil_needle (actors : List (Option WinInfo)) :
    focusWindowLoop [] actors =
      (actors.filterMap id).find? (fun w => w.wtype == WindowType.normal) := by
  induction actors with
  | nil => rfl
  | cons a rest ih =>
      cases a with
      | none => simpa only [focusWindowLoop, List.filterMap_cons] using ih
      | some w =>
          simp only [focusWindowLoop, List.filterMap_cons, id_eq]
          by_cases hw : w.wtype = WindowType.normal
          · rw [List.find?_cons_of_pos _ (by simp [hw])]
            simp [hw, includes_nil, toLower]
          · rw [List.find?_cons_of_neg _ (by simp [hw])]
            simp [hw, ih]

/-- Filling in absent title/class fields with the empty string changes the
scan's result only up to that filling. -/
theorem focusWindowLoop_fillAbsent (needle : List Char)
    (actors : List (Option WinInfo)) :
    Option.map fillAbsent (focusWindowLoop needle actors) =
      focusWindowLoop needle (actors.map (Option.map fillAbsent)) := by
  induction actors with
  | nil => rfl
  | cons a rest ih =>
      cases a with
      | none => simpa [focusWindowLoop] using ih
      | some w =>
          by_cases hw : w.wtype = WindowType.normal
          · by_cases hm : (includes (toLower (w.title.getD [])) needle
                || includes (toLower (w.wmClass.getD [])) needle) = true
            · simp [focusWindowLoop, hw, fillAbsent, hm]
            · simp [focusWindowLoop, hw, fillAbsent, hm, ih]
          · simp [focusWindowLoop, hw, fillAbsent, ih]

/-! ## Claims -/

/-- C1: for every `(w,h)` passed to `Show`, the created overlay's bounds
and the stored screen dimensions come from the real primary output's
geometry, not from `w,h` (the result is even independent of `w,h`); and
`GetScreenSize`, called at any time — in particular right after
`Show(w,h)` — returns the live primary output size, never a cached or
requested value. -/
theorem show_and_getScreenSize_use_live_output
    (mon live : Monitor) (w h : Int) (s : GridOverlayState) :
    (showGrid mon w h s).screenW = mon.width ∧
    (showGrid mon w h s).screenH = mon.height ∧
    (showGrid mon w h s).bounds = (0, 0, mon.width, mon.height) ∧
    (showGrid mon w h s).container =
      some ⟨mon.x, mon.y, mon.width, mon.height⟩ ∧
    (∀ w' h', showGrid mon w h s = showGrid mon w' h' s) ∧
    getScreenSize live (showGrid mon w h s) = (live.width, live.height) :=
  ⟨rfl, rfl, rfl, rfl, fun _ _ => rfl, rfl⟩

/-- C2: from a non-dragging state with the device available,
`StartDrag(x1,y1)` then `EndDrag(x2,y2)` emits exactly one primary press
(preceded by the move to `(x1,y1)`, at its gesture start `t0 + 5ms`) and
exactly one primary release (preceded by the move to `(x2,y2)`, at its own
`t0 + 5ms`), with no release during `StartDrag`; the overlay is hidden by
`EndDrag` and not by `StartDrag`; the drag flag is set by `StartDrag` and
cleared by `EndDrag`. -/
theorem startDrag_endDrag_press_release
    (env : CreateEnv) (t0 t1 x1 y1 x2 y2 : Int) (s : GridOverlayState)
    (hdrag : s.dragging = false) (hptr : s.pointer = some ()) :
    (startDrag env t0 x1 y1 s).2.1 =
      [PEvent.motion t0 x1 y1,
       PEvent.button (t0 + 5000) BtnKind.primary BtnState.pressed] ∧
    (endDrag env t1 x2 y2 (startDrag env t0 x1 y1 s).1).2.1 =
      [PEvent.motion t1 x2 y2,
       PEvent.button (t1 + 5000) BtnKind.primary BtnState.released] ∧
    ((startDrag env t0 x1 y1 s).2.1 ++
      (endDrag env t1 x2 y2 (startDrag env t0 x1 y1 s).1).2.1).countP isPress
      = 1 ∧
    ((startDrag env t0 x1 y1 s).2.1 ++
      (endDrag env t1 x2 y2 (startDrag env t0 x1 y1 s).1).2.1).countP isRelease
      = 1 ∧
    (startDrag env t0 x1 y1 s).2.1.countP isRelease = 0 ∧
    (startDrag env t0 x1 y1 s).1.container = s.container ∧
    (endDrag env t1 x2 y2 (startDrag env t0 x1 y1 s).1).1.container = none ∧
    (startDrag env t0 x1 y1 s).1.dragging = true ∧
    (endDrag env t1 x2 y2 (startDrag env t0 x1 y1 s).1).1.dragging = false := by
  simp [startDrag, endDrag, _getPointer, hide, hptr, isPress, isRelease,
    List.countP_cons, List.countP_nil]

/-- C2 witness at `StartDrag(10,10)`, `EndDrag(200,200)`. -/
theorem startDrag_endDrag_press_release_witness :
    ptrReadyState.dragging = false ∧ ptrReadyState.pointer = some () ∧
    (startDrag okEnv 0 10 10 ptrReadyState).2.1 =
      [PEvent.motion 0 10 10,
       PEvent.button 5000 BtnKind.primary BtnState.pressed] ∧
    (endDrag okEnv 100 200 200 (startDrag okEnv 0 10 10 ptrReadyState).1).2.1 =
      [PEvent.motion 100 200 200,
       PEvent.button 5100 BtnKind.primary BtnState.released] :=
  ⟨rfl, rfl,
    (startDrag_endDrag_press_release okEnv 0 100 10 10 200 200 ptrReadyState
      rfl rfl).1,
    by
      have h := (startDrag_endDrag_press_release okEnv 0 100 10 10 200 200
        ptrReadyState rfl rfl).2.1
      simpa using h⟩

/-- C3: with the device available, `Scroll(x,y,d,n)` hides the overlay,
does not fail, and emits a move at `t0` followed by exactly `n` scroll
events at `t0 + i·50ms` (`i = 0..n−1`), each carrying the unit delta of
`d` — `(0,−1)` up, `(0,1)` down, `(−1,0)` left, `(1,0)` right — and the
zero delta `(0,0)` for any unrecognized direction string. -/
theorem scroll_trace
    (env : CreateEnv) (t x y : Int) (direction : String) (clicks : Nat)
    (s : GridOverlayState) (hptr : s.pointer = some ()) :
    (scroll env t x y direction clicks s).1.container = none ∧
    (scroll env t x y direction clicks s).2.2 = true ∧
    (scroll env t x y direction clicks s).2.1 =
      PEvent.motion t x y ::
        (List.range clicks).map (fun i =>
          PEvent.scroll (t + (i : Int) * 50000)
            (dirDelta direction).1 (dirDelta direction).2) ∧
    dirDelta "up" = (0, -1) ∧
    dirDelta "down" = (0, 1) ∧
    dirDelta "left" = (-1, 0) ∧
    dirDelta "right" = (1, 0) ∧
    (direction ∉ ["up", "down", "left", "right"] →
      dirDelta direction = (0, 0)) := by
  refine ⟨?_, ?_, ?_, by decide, by decide, by decide, by decide, ?_⟩
  · simp [scroll, _getPointer, hide, hptr]
  · simp [scroll, _getPointer, hide, hptr]
  · simp [scroll, _getPointer, hide, hptr, scrollEvents]
  · intro hmem
    simp only [List.mem_cons, List.not_mem_nil, or_false, not_or] at hmem
    obtain ⟨h1, h2, h3, h4⟩ := hmem
    simp [dirDelta, h1, h2, h3, h4]

/-- C3 witness at `Scroll(3,4,"down",3)` and `Scroll(3,4,"bogus",3)`. -/
theorem scroll_trace_witness :
    ptrReadyState.pointer = some () ∧
    (scroll okEnv 0 3 4 "down" 3 ptrReadyState).2.1 =
      [PEvent.motion 0 3 4, PEvent.scroll 0 0 1, PEvent.scroll 50000 0 1,
       PEvent.scroll 100000 0 1] ∧
    (scroll okEnv 0 3 4 "bogus" 3 ptrReadyState).2.1 =
      [PEvent.motion 0 3 4, PEvent.scroll 0 0 0, PEvent.scroll 50000 0 0,
       PEvent.scroll 100000 0 0] :=
  ⟨rfl,
    by
      have h := (scroll_trace okEnv 0 3 4 "down" 3 ptrReadyState rfl).2.2.1
      simpa [dirDelta, List.range_succ] using h,
    by
      have h := (scroll_trace okEnv 0 3 4 "bogus" 3 ptrReadyState rfl).2.2.1
      simpa [dirDelta, List.range_succ] using h⟩

/-- C4 counterexample: with device creation always failing, a second
`Click` after a failed first one attempts creation again — the attempt
counter reaches 2 and the failure escapes to the caller again, so the
failure is neither surfaced exactly once nor are subsequent
pointer-producing calls disabled. -/
theorem pointer_failure_retry_counterexample :
    (click failEnv 0 0 0 initState).2.2 = false ∧
    (click failEnv 0 0 0 (click failEnv 0 0 0 initState).1).2.2 = false ∧
    (click failEnv 0 0 0 (click failEnv 0 0 0 initState).1).1.createAttempts
      = 2 ∧
    (click failEnv 0 0 0 (click failEnv 0 0 0 initState).1).1.pointer
      = none := by
  decide

/-- C4 (amended): if device creation fails, the failing call emits no
events and the failure escapes to the façade, but the pointer field stays
unset, so every subsequent pointer-producing call retries device creation
(incrementing the attempt count) and, while creation keeps failing,
surfaces the failure again each time; nothing disables later calls. -/
theorem pointer_failure_retries
    (env : CreateEnv) (t x y : Int) (direction : String) (clicks : Nat)
    (s : GridOverlayState)
    (hptr : s.pointer = none) (hfail : env s.createAttempts = false) :
    click env t x y s =
      ({ s with container := none, createAttempts := s.createAttempts + 1 },
       [], false) ∧
    doubleClick env t x y s =
      ({ s with container := none, createAttempts := s.createAttempts + 1 },
       [], false) ∧
    rightClick env t x y s =
      ({ s with container := none, createAttempts := s.createAttempts + 1 },
       [], false) ∧
    middleClick env t x y s =
      ({ s with container := none, createAttempts := s.createAttempts + 1 },
       [], false) ∧
    moveTo env t x y s =
      ({ s with createAttempts := s.createAttempts + 1 }, [], false) ∧
    startDrag env t x y s =
      ({ s with createAttempts := s.createAttempts + 1 }, [], false) ∧
    (s.dragging = true →
      endDrag env t x y s =
        ({ s with container := none, createAttempts := s.createAttempts + 1 },
         [], false)) ∧
    scroll env t x y direction clicks s =
      ({ s with container := none, createAttempts := s.createAttempts + 1 },
       [], false) ∧
    (click env t x y s).1.pointer = none := by
  refine ⟨?_, ?_, ?_, ?_, ?_, ?_,
    fun hd => by simp [endDrag, hide, _getPointer, hptr, hfail, hd], ?_, ?_⟩ <;>
    simp [click, doubleClick, rightClick, middleClick, moveTo, startDrag,
      scroll, hide, _getPointer, hptr, hfail]

/-- C4 witness: the amended behaviour at the fresh state with an
always-failing device environment. -/
theorem pointer_failure_retries_witness :
    initState.pointer = none ∧ failEnv initState.createAttempts = false ∧
    click failEnv 0 0 0 initState =
      ({ initState with container := none, createAttempts := 1 },
       [], false) :=
  ⟨rfl, rfl, by
    have h := (pointer_failure_retries failEnv 0 0 0 "up" 0 initState
      rfl rfl).1
    simpa using h⟩

/-- C5: with the device available, `Click(x,y)` hides the overlay then
emits exactly move(`t0`), primary press(`t0+5ms`), primary
release(`t0+10ms`), and `DoubleClick(x,y)` the same prefix followed by a
second press(`t0+60ms`) and release(`t0+65ms`) — the full results are
pinned, so no other events are emitted. -/
theorem click_doubleClick_sequences
    (env : CreateEnv) (t x y : Int) (s : GridOverlayState)
    (hptr : s.pointer = some ()) :
    click env t x y s =
      ({ s with container := none },
       [PEvent.motion t x y,
        PEvent.button (t + 5000) BtnKind.primary BtnState.pressed,
        PEvent.button (t + 10000) BtnKind.primary BtnState.released],
       true) ∧
    doubleClick env t x y s =
      ({ s with container := none },
       [PEvent.motion t x y,
        PEvent.button (t + 5000) BtnKind.primary BtnState.pressed,
        PEvent.button (t + 10000) BtnKind.primary BtnState.released,
        PEvent.button (t + 60000) BtnKind.primary BtnState.pressed,
        PEvent.button (t + 65000) BtnKind.primary BtnState.released],
       true) := by
  constructor <;> simp [click, doubleClick, hide, _getPointer, hptr]

/-- C5 witness at `(x,y) = (5,7)`, `t0 = 0`. -/
theorem click_doubleClick_sequences_witness :
    ptrReadyState.pointer = some () ∧
    click okEnv 0 5 7 ptrReadyState =
      ({ ptrReadyState with container := none },
       [PEvent.motion 0 5 7,
        PEvent.button 5000 BtnKind.primary BtnState.pressed,
        PEvent.button 10000 BtnKind.primary BtnState.released],
       true) :=
  ⟨rfl, by
    have h := (click_doubleClick_sequences okEnv 0 5 7 ptrReadyState rfl).1
    simpa using h⟩

/-- C6: when the drag flag is false, `EndDrag(x,y)` is a complete no-op:
the state (overlay, drag flag, everything) is returned unchanged, no
events are emitted, and no error is signalled. -/
theorem endDrag_without_drag_noop
    (env : CreateEnv) (t x y : Int) (s : GridOverlayState)
    (h : s.dragging = false) :
    endDrag env t x y s = (s, [], true) := by
  simp [endDrag, h]

/-- C6 witness: `EndDrag` on the fresh state. -/
theorem endDrag_without_drag_noop_witness :
    initState.dragging = false ∧
    endDrag okEnv 0 200 200 initState = (initState, [], true) :=
  ⟨rfl, endDrag_without_drag_noop okEnv 0 200 200 initState rfl⟩

/-- C7: with the current index in `[0, n)`: at the last index
`NextWorkspace` leaves it unchanged, at index 0 `PrevWorkspace` leaves it
unchanged, otherwise they move by +1 / −1, and both always keep the index
inside `[0, n−1]`. -/
theorem workspace_nav_clamped (s : WSState)
    (h0 : 0 ≤ s.current) (h1 : s.current < s.n) :
    (s.current = s.n - 1 → (nextWorkspace s).current = s.current) ∧
    (s.current = 0 → (prevWorkspace s).current = s.current) ∧
    (s.current < s.n - 1 → (nextWorkspace s).current = s.current + 1) ∧
    (0 < s.current → (prevWorkspace s).current = s.current - 1) ∧
    0 ≤ (nextWorkspace s).current ∧ (nextWorkspace s).current < s.n ∧
    0 ≤ (prevWorkspace s).current ∧ (prevWorkspace s).current < s.n := by
  have hnext : (nextWorkspace s).current = min (s.current + 1) (s.n - 1) := by
    unfold nextWorkspace switchWorkspace get_workspace_by_index
    rw [if_pos (by omega :
      0 ≤ min (s.current + 1) (s.n - 1) ∧ min (s.current + 1) (s.n - 1) < s.n)]
  have hprev : (prevWorkspace s).current = max (s.current - 1) 0 := by
    unfold prevWorkspace switchWorkspace get_workspace_by_index
    rw [if_pos (by omega :
      0 ≤ max (s.current - 1) 0 ∧ max (s.current - 1) 0 < s.n)]
  simp only [hnext, hprev]
  omega

/-- C7 witness with 3 workspaces: clamping at the top (index 2), at the
bottom (index 0), and the interior step from index 1. -/
theorem workspace_nav_clamped_witness :
    ((0 : Int) ≤ 2 ∧ (2 : Int) < 3 ∧ (nextWorkspace ⟨3, 2⟩).current = 2) ∧
    ((0 : Int) ≤ 0 ∧ (0 : Int) < 3 ∧ (prevWorkspace ⟨3, 0⟩).current = 0) ∧
    ((0 : Int) ≤ 1 ∧ (1 : Int) < 3 ∧ (nextWorkspace ⟨3, 1⟩).current = 2 ∧
      (prevWorkspace ⟨3, 1⟩).current = 0) :=
  ⟨⟨by decide, by decide,
      (workspace_nav_clamped ⟨3, 2⟩ (by decide) (by decide)).1 rfl⟩,
   ⟨by decide, by decide,
      (workspace_nav_clamped ⟨3, 0⟩ (by decide) (by decide)).2.1 rfl⟩,
   ⟨by decide, by decide,
      (workspace_nav_clamped ⟨3, 1⟩ (by decide) (by decide)).2.2.1 (by decide),
      (workspace_nav_clamped ⟨3, 1⟩ (by decide) (by decide)).2.2.2.1
        (by decide)⟩⟩

/-- C8: on a focused window, `TileLeft` unmaximizes first and then resizes
to `(ax, ay, ⌊W/2⌋, H)`, `TileRight` to `(ax+⌊W/2⌋, ay, ⌊W/2⌋, H)`; the
two frames are adjacent (left edge end = right edge start, hence
disjoint), their widths sum to `W` within 1px, and both keep the full
work-area height. -/
theorem tileLeft_tileRight_halves (workArea : Rect) (w1 w2 : MetaWindow) :
    tileLeft workArea (some w1) =
      (some ⟨false, ⟨workArea.x, workArea.y, workArea.width.fdiv 2,
          workArea.height⟩⟩,
       [WinAction.unmaximizeBoth,
        WinAction.moveResizeFrame false workArea.x workArea.y
          (workArea.width.fdiv 2) workArea.height]) ∧
    tileRight workArea (some w2) =
      (some ⟨false, ⟨workArea.x + workArea.width.fdiv 2, workArea.y,
          workArea.width.fdiv 2, workArea.height⟩⟩,
       [WinAction.unmaximizeBoth,
        WinAction.moveResizeFrame false (workArea.x + workArea.width.fdiv 2)
          workArea.y (workArea.width.fdiv 2) workArea.height]) ∧
    workArea.x + workArea.width.fdiv 2 + workArea.width.fdiv 2
      ≤ workArea.x + workArea.width ∧
    workArea.x + workArea.width
      ≤ workArea.x + workArea.width.fdiv 2 + workArea.width.fdiv 2 + 1 := by
  have hd : workArea.width.fdiv 2 = workArea.width / 2 :=
    Int.fdiv_eq_ediv workArea.width (by norm_num)
  refine ⟨?_, ?_, by omega, by omega⟩ <;>
    simp [tileLeft, tileRight, unmaximize, move_resize_frame]

/-- C9: `StartDrag(x,y)` while the drag flag is already true is neither
rejected nor ignored: it emits the move and a second primary press with no
release, succeeds, and leaves the flag true — so after two `StartDrag`s
two presses are outstanding with no release emitted. -/
theorem startDrag_while_dragging
    (env : CreateEnv) (t t' x y x' y' : Int) (s : GridOverlayState)
    (hdrag : s.dragging = true) (hptr : s.pointer = some ()) :
    (startDrag env t x y s).2.1 =
      [PEvent.motion t x y,
       PEvent.button (t + 5000) BtnKind.primary BtnState.pressed] ∧
    (startDrag env t x y s).2.2 = true ∧
    (startDrag env t x y s).1.dragging = true ∧
    ((startDrag env t x y s).2.1 ++
      (startDrag env t' x' y' (startDrag env t x y s).1).2.1).countP isPress
      = 2 ∧
    ((startDrag env t x y s).2.1 ++
      (startDrag env t' x' y' (startDrag env t x y s).1).2.1).countP isRelease
      = 0 := by
  simp [startDrag, _getPointer, hptr, isPress, isRelease,
    List.countP_cons, List.countP_nil]

/-- C9 witness: a second `StartDrag` from mid-drag state. -/
theorem startDrag_while_dragging_witness :
    draggingState.dragging = true ∧ draggingState.pointer = some () ∧
    (startDrag okEnv 0 10 10 draggingState).2.1 =
      [PEvent.motion 0 10 10,
       PEvent.button 5000 BtnKind.primary BtnState.pressed] :=
  ⟨rfl, rfl,
    (startDrag_while_dragging okEnv 0 100 10 10 20 20 draggingState
      rfl rfl).1⟩

/-- C10: `FocusWindow("")` activates (and reports success on) exactly the
first non-null normal window of the enumeration, whenever one exists; and
absent titles or classes behave exactly as if they were the empty string,
so they never fail a call or prevent a match. -/
theorem focusWindow_empty_and_absent_fields
    (actors : List (Option WinInfo)) (needle : List Char) :
    focusWindow [] actors =
      (actors.filterMap id).find? (fun w => w.wtype == WindowType.normal) ∧
    Option.map fillAbsent (focusWindow needle actors) =
      focusWindow needle (actors.map (Option.map fillAbsent)) := by
  constructor
  · simpa [focusWindow, toLower] using focusWindowLoop_nil_needle actors
  · simpa [focusWindow] using
      focusWindowLoop_fillAbsent (toLower needle) actors

end EasySpeak
